import Mathlib

/-!
Shallow embedding of the bible-verses app (App.js and its two variants) and
theorems checking the specification claims about it.  The embedding covers the
data model (verse, persisted store, stage), the verse fetch with its error
handling, both notification-scheduling variants, and the stage state machine
driven by the mount effect, the refresh handler and the animation-finish
callback.
-/

namespace BibleVerses

/-- A verse held in component state: fields text and reference, both strings
(initially both empty). -/
structure Verse where
  text : String
  reference : String
deriving DecidableEq, Repr

/-- The persisted key-value store, restricted to the single key the program
uses (LAST_OPEN_KEY).  none models a missing key, i.e. AsyncStorage.getItem
returning null. -/
structure Store where
  lastOpenDate : Option String
deriving DecidableEq, Repr

/-- A point in time in the device clock: a calendar day index and the
milliseconds elapsed within that day.  JavaScript Date values compare by their
epoch milliseconds, recovered by epochMs. -/
structure DateTime where
  day : Nat
  ms : Nat
deriving DecidableEq, Repr

/-- Milliseconds in a day (24 * 60 * 60 * 1000). -/
def msPerDay : Nat := 86400000

/-- Epoch milliseconds of a DateTime, the quantity JavaScript Date comparison
operators compare. -/
def epochMs (d : DateTime) : Nat := d.day * msPerDay + d.ms

/-- Milliseconds within a day of the 10:00:00.000 clock position that
setHours(10, 0, 0, 0) produces (10 * 60 * 60 * 1000). -/
def tenAmMs : Nat := 36000000

/-- TRANSLATION_ID: almeida for a Portuguese device locale, web otherwise.
The load-time flag isPt stands for deviceLang.startsWith(pt). -/
def TRANSLATION_ID (isPt : Bool) : String := if isPt then "almeida" else "web"

/-- API_URL, built from the locale-selected translation id. -/
def API_URL (isPt : Bool) : String :=
  "https://bible-api.com/data/" ++ TRANSLATION_ID isPt ++ "/random"

/-- BUTTON_LABEL, locale-selected. -/
def BUTTON_LABEL (isPt : Bool) : String :=
  if isPt then "Novo Versículo" else "New Verse"

/-- NOTIF_TITLE, locale-selected. -/
def NOTIF_TITLE (isPt : Bool) : String :=
  if isPt then "Versículo Diário" else "Daily Verse"

/-- NOTIF_BODY, locale-selected default notification body. -/
def NOTIF_BODY (isPt : Bool) : String :=
  if isPt then "Toque para abrir o app e ler um versículo!"
  else "Tap to open the app and read a verse!"

/-- The persisted key name. -/
def LAST_OPEN_KEY : String := "@bible:last_open_date"

/-- The JSON record json.random_verse as the code reads it: each field is none
when absent (JavaScript undefined); a present field is carried as the string
JavaScript interpolates for it in a template literal. -/
structure RandomVerse where
  text : Option String
  book : Option String
  chapter : Option String
  verse : Option String
deriving DecidableEq, Repr

/-- Outcome of fetch(API_URL) followed by res.json().  failure: the fetch
promise rejects (network error) or the body is not JSON, so res.json() throws.
success rv: a parsed JSON body, where rv = none means the body has no usable
random_verse record (absent or null). -/
inductive FetchOutcome where
  | failure
  | success (random_verse : Option RandomVerse)
deriving DecidableEq, Repr

/-- Exceptions the try block of fetchVerse can raise: the fetch or JSON parse
failing, or the TypeError from reading .text of an undefined random_verse. -/
inductive JsError where
  | fetchFailed
  | typeErrorUndefined
deriving DecidableEq, Repr

/-- JavaScript template-literal interpolation of a possibly undefined value. -/
def jsString : Option String → String
  | none => "undefined"
  | some s => s

/-- JavaScript String.prototype.trim: remove leading and trailing whitespace
characters. -/
def jsTrim (s : String) : String :=
  { data :=
      ((s.data.dropWhile Char.isWhitespace).reverse.dropWhile
        Char.isWhitespace).reverse }

/-- The try block of fetchVerse: on a parsed body with a verse record it builds
text as (rv.text or the empty string, trimmed) and reference as the template
book chapter:verse, interpolating undefined for missing fields; otherwise it
throws. -/
def fetchVerseTry : FetchOutcome → Except JsError Verse
  | FetchOutcome.failure => Except.error JsError.fetchFailed
  | FetchOutcome.success none => Except.error JsError.typeErrorUndefined
  | FetchOutcome.success (some rv) =>
      Except.ok
        { text := jsTrim (rv.text.getD ""),
          reference := jsString rv.book ++ " " ++ jsString rv.chapter ++ ":"
            ++ jsString rv.verse }

/-- The verse set by the catch branch of fetchVerse.  In the source this is the
fixed string literal Erro ao obter versículo. with an empty reference; it does
not consult the locale flag. -/
def fetchErrorVerse : Verse :=
  { text := "Erro ao obter versículo.", reference := "" }

/-- fetchVerse, as the verse value it stores via setVerse: the try block result
when no exception is raised, the catch branch fallback otherwise.  isPt is the
load-time locale flag of the module (it selects API_URL; the catch branch does
not use it). -/
def fetchVerse (isPt : Bool) (outcome : FetchOutcome) : Verse :=
  match fetchVerseTry outcome with
  | Except.ok v => v
  | Except.error _ => fetchErrorVerse

/-- Stage values of the state machine.  The source literals are loading, open,
turn and display; open is a Lean keyword, so its constructor here is named
opened. -/
inductive Stage where
  | loading
  | opened
  | turn
  | display
deriving DecidableEq, Repr

/-- Notification trigger: either the explicit date trigger of scheduleIfNeeded
(type date, with a channelId) or the repeating calendar trigger of
scheduleDailyNotification (hour, minute, repeats, channelId). -/
inductive Trigger where
  | date (d : DateTime) (channelId : String)
  | calendarDaily (hour minute : Nat) (repeats : Bool) (channelId : String)
deriving DecidableEq, Repr

/-- The content object passed to scheduleNotificationAsync: title, body, and
the data payload field reference. -/
structure NotifContent where
  title : String
  body : String
  dataReference : String
deriving DecidableEq, Repr

/-- A scheduled notification request: content plus trigger. -/
structure NotifRequest where
  content : NotifContent
  trigger : Trigger
deriving DecidableEq, Repr

/-- Externally visible primitive actions the handlers perform, recorded in
program order: the HTTP GET of fetchVerse, the AsyncStorage read and write of
the LAST_OPEN_KEY value, cancelAllScheduledNotificationsAsync,
scheduleNotificationAsync, and a setStage call. -/
inductive Action where
  | httpGet
  | storageGet
  | cancelAll
  | scheduleNotif (n : NotifRequest)
  | storageSet (value : String)
  | stageSet (st : Stage)
deriving DecidableEq, Repr

/-- The trigger date computed by scheduleIfNeeded: take now, set the clock to
10:00:00.000, and move one day forward when new Date() is greater than or
equal to that trigger date. -/
def scheduleTrigger (now : DateTime) : DateTime :=
  let t0 : DateTime := { day := now.day, ms := tenAmMs }
  if epochMs t0 ≤ epochMs now then { t0 with day := t0.day + 1 } else t0

/-- The notification content both scheduler variants build: title NOTIF_TITLE,
body verse.text or else (when that string is empty, hence falsy) NOTIF_BODY,
and data reference verse.reference. -/
def notifContent (isPt : Bool) (verse : Verse) : NotifContent :=
  { title := NOTIF_TITLE isPt,
    body := if verse.text = "" then NOTIF_BODY isPt else verse.text,
    dataReference := verse.reference }

/-- scheduleIfNeeded (the variant with an explicit triggerDate): read the
persisted date; when it differs from today, cancel all scheduled notifications
and schedule one notification for scheduleTrigger now; in every case finish by
writing today back (the setItem call sits outside the if).  Returns the new
store contents and the actions performed, in order. -/
def scheduleIfNeeded (isPt : Bool) (verse : Verse) (now : DateTime)
    (today : String) (store : Store) : Store × List Action :=
  if store.lastOpenDate ≠ some today then
    (⟨some today⟩,
      [Action.storageGet, Action.cancelAll,
        Action.scheduleNotif
          ⟨notifContent isPt verse, Trigger.date (scheduleTrigger now) "default"⟩,
        Action.storageSet today])
  else
    (⟨some today⟩, [Action.storageGet, Action.storageSet today])

/-- scheduleDailyNotification (the App.js variant): the same dedup read, but
the trigger is a repeating 10:00 calendar trigger, and the setItem call sits
inside the if, so nothing is written when the stored date already equals
today. -/
def scheduleDailyNotification (isPt : Bool) (verse : Verse) (today : String)
    (store : Store) : Store × List Action :=
  if store.lastOpenDate ≠ some today then
    (⟨some today⟩,
      [Action.storageGet, Action.cancelAll,
        Action.scheduleNotif
          ⟨notifContent isPt verse, Trigger.calendarDaily 10 0 true "default"⟩,
        Action.storageSet today])
  else
    (store, [Action.storageGet])

/-- The notification requests scheduled within a list of actions. -/
def scheduledOf (acts : List Action) : List NotifRequest :=
  acts.filterMap fun a => match a with
    | Action.scheduleNotif n => some n
    | _ => none

/-- Whether an action creates or cancels notifications. -/
def isNotifAction : Action → Bool
  | Action.cancelAll => true
  | Action.scheduleNotif _ => true
  | _ => false

/-- The subsequence of notification-creating or cancelling actions. -/
def notifActionsOf (acts : List Action) : List Action := acts.filter isNotifAction

/-- The triggers of the notifications scheduled within a list of actions. -/
def scheduledTriggersOf (acts : List Action) : List Trigger :=
  (scheduledOf acts).map fun n => n.trigger

/-- Whether an action belongs to the notification-scheduler evaluation (its
storage read and write, cancellation and scheduling). -/
def isSchedulerAction : Action → Bool
  | Action.storageGet => true
  | Action.cancelAll => true
  | Action.scheduleNotif _ => true
  | Action.storageSet _ => true
  | _ => false

/-- Component state together with two history variables used to phrase
temporal claims: firstLoadDone records that the mount effect (the first
fetch-and-schedule sequence) has run to completion, and animFinished records
that an onAnimationFinish event has occurred. -/
structure AppState where
  verse : Verse
  loading : Bool
  stage : Stage
  store : Store
  firstLoadDone : Bool
  animFinished : Bool
deriving DecidableEq, Repr

/-- The React initial state: verse with empty text and reference, loading true,
stage loading.  The persisted store survives restarts, so it is a parameter. -/
def initState (store0 : Store) : AppState :=
  { verse := ⟨"", ""⟩, loading := true, stage := Stage.loading, store := store0,
    firstLoadDone := false, animFinished := false }

/-- Effect of one completed fetchVerse() call on component state: it sets
loading true, performs the HTTP GET, stores the resulting verse via setVerse,
and sets loading false, so the net state change is the new verse and loading
false, and the one external action is the HTTP GET. -/
def applyFetchVerse (isPt : Bool) (outcome : FetchOutcome) (s : AppState) :
    AppState × List Action :=
  ({ s with verse := fetchVerse isPt outcome, loading := false },
    [Action.httpGet])

/-- The mount effect of App.js: await fetchVerse(), await
scheduleDailyNotification(), setStage to open.  The useState binding verse is
captured when the effect closure is created, and setVerse only affects later
renders, so the verse the scheduler reads during this sequence is the
pre-fetch s.verse, not the newly fetched one. -/
def mountEffect (isPt : Bool) (outcome : FetchOutcome) (today : String)
    (s : AppState) : AppState × List Action :=
  let f := applyFetchVerse isPt outcome s
  let r := scheduleDailyNotification isPt s.verse today f.1.store
  ({ f.1 with store := r.1, stage := Stage.opened },
    f.2 ++ r.2 ++ [Action.stageSet Stage.opened])

/-- handleRefresh: setStage to open, then await fetchVerse(), then await
scheduleDailyNotification().  As in the mount effect, the scheduler reads the
closure-captured pre-fetch verse. -/
def handleRefresh (isPt : Bool) (outcome : FetchOutcome) (today : String)
    (s : AppState) : AppState × List Action :=
  let s0 := { s with stage := Stage.opened }
  let f := applyFetchVerse isPt outcome s0
  let r := scheduleDailyNotification isPt s.verse today f.1.store
  ({ f.1 with store := r.1 },
    Action.stageSet Stage.opened :: f.2 ++ r.2)

/-- One event of the single-threaded UI event loop, each handler run to
completion.  mount fires once (its useEffect dependency TRANSLATION_ID is a
load-time constant, so the effect does not re-run); refresh requires the
button to be enabled (its disabled prop is the loading flag); animFinish
requires the LottieView to be mounted, which the render tree does exactly when
the stage is open or turn. -/
inductive Step (isPt : Bool) : AppState → AppState → Prop where
  | mount (s : AppState) (outcome : FetchOutcome) (today : String) :
      s.firstLoadDone = false →
      Step isPt s { (mountEffect isPt outcome today s).1 with firstLoadDone := true }
  | refresh (s : AppState) (outcome : FetchOutcome) (today : String) :
      s.loading = false →
      Step isPt s (handleRefresh isPt outcome today s).1
  | animFinish (s : AppState) :
      s.stage = Stage.opened ∨ s.stage = Stage.turn →
      Step isPt s { s with stage := Stage.display, animFinished := true }

/-- States reachable from the initial state by event-loop steps. -/
def Reachable (isPt : Bool) (store0 : Store) (s : AppState) : Prop :=
  Relation.ReflTransGen (Step isPt) (initState store0) s

/-- The render-tree condition guarding the LottieView page-turn animation:
stage equals open or stage equals turn. -/
def renderTurnAnim (st : Stage) : Bool :=
  st == Stage.opened || st == Stage.turn

/-- The stage invariant: turn is never held, display implies a prior
animation-finish event, loading implies the first fetch-and-schedule sequence
has not completed. -/
def StageInv (s : AppState) : Prop :=
  s.stage ≠ Stage.turn ∧ (s.stage = Stage.display → s.animFinished = true) ∧
    (s.stage = Stage.loading → s.firstLoadDone = false)

theorem stageInv_init (store0 : Store) : StageInv (initState store0) := by
  refine ⟨?_, ?_, ?_⟩ <;> simp [initState, StageInv]

theorem stageInv_step {isPt : Bool} {s t : AppState} (h : Step isPt s t)
    (hs : StageInv s) : StageInv t := by
  cases h with
  | mount outcome today hfl =>
      refine ⟨?_, ?_, ?_⟩ <;> simp [mountEffect, applyFetchVerse, StageInv]
  | refresh outcome today hl =>
      refine ⟨?_, ?_, ?_⟩ <;> simp [handleRefresh, applyFetchVerse, StageInv]
  | animFinish hpre =>
      exact ⟨by simp, by simp, by simp⟩

theorem reachable_stageInv {isPt : Bool} {store0 : Store} {s : AppState}
    (h : Reachable isPt store0 s) : StageInv s := by
  induction h with
  | refl => exact stageInv_init store0
  | tail _ hstep ih => exact stageInv_step hstep ih

theorem scheduleIfNeeded_schedules (isPt : Bool) (v : Verse) (now : DateTime)
    (today : String) (store : Store) (h : store.lastOpenDate ≠ some today) :
    scheduleIfNeeded isPt v now today store
      = (⟨some today⟩,
          [Action.storageGet, Action.cancelAll,
            Action.scheduleNotif
              ⟨notifContent isPt v, Trigger.date (scheduleTrigger now) "default"⟩,
            Action.storageSet today]) := by
  unfold scheduleIfNeeded
  exact if_pos h

theorem scheduleIfNeeded_skips (isPt : Bool) (v : Verse) (now : DateTime)
    (today : String) (store : Store) (h : store.lastOpenDate = some today) :
    scheduleIfNeeded isPt v now today store
      = (⟨some today⟩, [Action.storageGet, Action.storageSet today]) := by
  unfold scheduleIfNeeded
  exact if_neg (not_not_intro h)

theorem scheduleDailyNotification_schedules (isPt : Bool) (v : Verse)
    (today : String) (store : Store) (h : store.lastOpenDate ≠ some today) :
    scheduleDailyNotification isPt v today store
      = (⟨some today⟩,
          [Action.storageGet, Action.cancelAll,
            Action.scheduleNotif
              ⟨notifContent isPt v, Trigger.calendarDaily 10 0 true "default"⟩,
            Action.storageSet today]) := by
  unfold scheduleDailyNotification
  exact if_pos h

theorem scheduleDailyNotification_skips (isPt : Bool) (v : Verse)
    (today : String) (store : Store) (h : store.lastOpenDate = some today) :
    scheduleDailyNotification isPt v today store
      = (store, [Action.storageGet]) := by
  unfold scheduleDailyNotification
  exact if_neg (not_not_intro h)

/-- C1: after every call to either scheduling operation the persisted
LastOpenDate value is today, whether or not anything was scheduled; and when
the stored value already equals today, both operations leave the stored value
unchanged (still today) and schedule nothing. -/
theorem lastOpen_holds_today (isPt : Bool) (v : Verse) (now : DateTime)
    (today : String) (store : Store) :
    (scheduleIfNeeded isPt v now today store).1.lastOpenDate = some today ∧
    (scheduleDailyNotification isPt v today store).1.lastOpenDate = some today ∧
    (scheduleIfNeeded isPt v now today ⟨some today⟩).1 = ⟨some today⟩ ∧
    scheduledOf (scheduleIfNeeded isPt v now today ⟨some today⟩).2 = [] ∧
    (scheduleDailyNotification isPt v today ⟨some today⟩).1 = ⟨some today⟩ ∧
    scheduledOf (scheduleDailyNotification isPt v today ⟨some today⟩).2 = [] := by
  refine ⟨?_, ?_, ?_, ?_, ?_, ?_⟩
  · unfold scheduleIfNeeded
    split <;> rfl
  · by_cases h : store.lastOpenDate = some today
    · rw [scheduleDailyNotification_skips isPt v today store h]
      exact h
    · rw [scheduleDailyNotification_schedules isPt v today store h]
  · rw [scheduleIfNeeded_skips isPt v now today ⟨some today⟩ rfl]
  · rw [scheduleIfNeeded_skips isPt v now today ⟨some today⟩ rfl]
    rfl
  · rw [scheduleDailyNotification_skips isPt v today ⟨some today⟩ rfl]
  · rw [scheduleDailyNotification_skips isPt v today ⟨some today⟩ rfl]
    rfl

/-- C2 counterexample: the JSON body whose random_verse record is present but
lacks every expected field is a malformed response in the sense of the claim,
yet fetchVerse gives it an empty text and the non-empty reference
"undefined undefined:undefined". -/
theorem fetch_malformed_counterexample :
    (fetchVerse false (FetchOutcome.success (some ⟨none, none, none, none⟩))).text
        = "" ∧
    (fetchVerse false (FetchOutcome.success (some ⟨none, none, none, none⟩))).reference
        = "undefined undefined:undefined" ∧
    ¬ ((fetchVerse false (FetchOutcome.success (some ⟨none, none, none, none⟩))).text
          ≠ "" ∧
        (fetchVerse false (FetchOutcome.success (some ⟨none, none, none, none⟩))).reference
          = "") := by
  have h1 : (fetchVerse false (FetchOutcome.success
      (some ⟨none, none, none, none⟩))).text = "" := by decide
  have h2 : (fetchVerse false (FetchOutcome.success
      (some ⟨none, none, none, none⟩))).reference
      = "undefined undefined:undefined" := by decide
  refine ⟨h1, h2, ?_⟩
  rintro ⟨ht, _⟩
  exact ht h1

/-- C2 (amended): exactly the fetch outcomes on which the try block throws
(network error or non-JSON body, or a body whose verse record is absent) yield
the fallback verse, whose text is non-empty and whose reference is empty; a
present verse record never throws, its missing fields defaulting instead. -/
theorem fetch_malformed_amended (isPt : Bool) :
    fetchVerse isPt FetchOutcome.failure = fetchErrorVerse ∧
    fetchVerse isPt (FetchOutcome.success none) = fetchErrorVerse ∧
    fetchErrorVerse.text ≠ "" ∧ fetchErrorVerse.reference = "" ∧
    ∀ rv : RandomVerse,
      (fetchVerseTry (FetchOutcome.success (some rv))).isOk = true :=
  ⟨rfl, rfl, by decide, rfl, fun _ => rfl⟩

/-- C3: whenever scheduleIfNeeded decides to schedule, the trigger date of the
scheduled notification is the current day at 10:00 when the current time of
day is strictly before 10:00, and the next day at 10:00 otherwise. -/
theorem schedule_trigger_time (isPt : Bool) (v : Verse) (now : DateTime)
    (today : String) (store : Store) (hdiff : store.lastOpenDate ≠ some today)
    (hms : now.ms < msPerDay) :
    scheduledTriggersOf (scheduleIfNeeded isPt v now today store).2
      = [Trigger.date
          (if now.ms < tenAmMs then { day := now.day, ms := tenAmMs }
            else { day := now.day + 1, ms := tenAmMs }) "default"] := by
  have key : scheduleTrigger now
      = (if now.ms < tenAmMs then ({ day := now.day, ms := tenAmMs } : DateTime)
          else { day := now.day + 1, ms := tenAmMs }) := by
    unfold scheduleTrigger epochMs tenAmMs msPerDay
    dsimp only
    by_cases h : now.ms < 36000000
    · rw [if_neg (by omega), if_pos h]
    · rw [if_pos (by omega), if_neg h]
  rw [scheduleIfNeeded_schedules isPt v now today store hdiff, key]
  rfl

/-- C3 witness: one day before, at 09:00 on day 19724, the notification is
scheduled for that same day at 10:00. -/
theorem schedule_trigger_time_witness :
    scheduledTriggersOf
        (scheduleIfNeeded false ⟨"v", "r"⟩ ⟨19724, 32400000⟩ "2024-01-02"
          ⟨some "2024-01-01"⟩).2
      = [Trigger.date ⟨19724, 36000000⟩ "default"] :=
  schedule_trigger_time false ⟨"v", "r"⟩ ⟨19724, 32400000⟩ "2024-01-02"
    ⟨some "2024-01-01"⟩ (by decide) (by decide)

/-- C4: calling either scheduling operation twice with the same today, from
any starting store, schedules at most one notification across both calls, and
the second call performs no cancellation and no scheduling. -/
theorem schedule_idempotent_within_day (isPt : Bool) (v1 v2 : Verse)
    (now1 now2 : DateTime) (today : String) (s0 : Store) :
    ((scheduledOf ((scheduleIfNeeded isPt v1 now1 today s0).2
          ++ (scheduleIfNeeded isPt v2 now2 today
                (scheduleIfNeeded isPt v1 now1 today s0).1).2)).length ≤ 1 ∧
      notifActionsOf (scheduleIfNeeded isPt v2 now2 today
          (scheduleIfNeeded isPt v1 now1 today s0).1).2 = []) ∧
    ((scheduledOf ((scheduleDailyNotification isPt v1 today s0).2
          ++ (scheduleDailyNotification isPt v2 today
                (scheduleDailyNotification isPt v1 today s0).1).2)).length ≤ 1 ∧
      notifActionsOf (scheduleDailyNotification isPt v2 today
          (scheduleDailyNotification isPt v1 today s0).1).2 = []) := by
  by_cases h : s0.lastOpenDate = some today
  · rw [scheduleIfNeeded_skips isPt v1 now1 today s0 h,
      scheduleIfNeeded_skips isPt v2 now2 today ⟨some today⟩ rfl,
      scheduleDailyNotification_skips isPt v1 today s0 h,
      scheduleDailyNotification_skips isPt v2 today s0 h]
    exact ⟨⟨Nat.zero_le 1, rfl⟩, ⟨Nat.zero_le 1, rfl⟩⟩
  · rw [scheduleIfNeeded_schedules isPt v1 now1 today s0 h,
      scheduleIfNeeded_skips isPt v2 now2 today ⟨some today⟩ rfl,
      scheduleDailyNotification_schedules isPt v1 today s0 h,
      scheduleDailyNotification_skips isPt v2 today ⟨some today⟩ rfl]
    exact ⟨⟨Nat.le_refl 1, rfl⟩, ⟨Nat.le_refl 1, rfl⟩⟩

/-- C5: on two different days, each differing from the stored date at the time
of the call, each of the two calls cancels everything first and then schedules
exactly one notification (shown for both scheduler variants). -/
theorem schedule_two_days (isPt : Bool) (v1 v2 : Verse) (now1 now2 : DateTime)
    (today1 today2 : String) (s0 : Store)
    (h1 : s0.lastOpenDate ≠ some today1) (h2 : today2 ≠ today1) :
    (∃ n1, notifActionsOf (scheduleIfNeeded isPt v1 now1 today1 s0).2
        = [Action.cancelAll, Action.scheduleNotif n1]) ∧
    (∃ n2, notifActionsOf (scheduleIfNeeded isPt v2 now2 today2
          (scheduleIfNeeded isPt v1 now1 today1 s0).1).2
        = [Action.cancelAll, Action.scheduleNotif n2]) ∧
    (∃ n3, notifActionsOf (scheduleDailyNotification isPt v1 today1 s0).2
        = [Action.cancelAll, Action.scheduleNotif n3]) ∧
    (∃ n4, notifActionsOf (scheduleDailyNotification isPt v2 today2
          (scheduleDailyNotification isPt v1 today1 s0).1).2
        = [Action.cancelAll, Action.scheduleNotif n4]) := by
  have hsecond : (⟨some today1⟩ : Store).lastOpenDate ≠ some today2 := by
    intro hc
    exact h2 (Option.some.inj hc).symm
  rw [scheduleIfNeeded_schedules isPt v1 now1 today1 s0 h1,
    scheduleIfNeeded_schedules isPt v2 now2 today2 ⟨some today1⟩ hsecond,
    scheduleDailyNotification_schedules isPt v1 today1 s0 h1,
    scheduleDailyNotification_schedules isPt v2 today2 ⟨some today1⟩ hsecond]
  exact ⟨⟨_, rfl⟩, ⟨_, rfl⟩, ⟨_, rfl⟩, ⟨_, rfl⟩⟩

/-- C5 witness: concrete two-day run starting from an empty store. -/
theorem schedule_two_days_witness :
    (∃ n1, notifActionsOf (scheduleIfNeeded false ⟨"v", ""⟩ ⟨0, 0⟩ "2024-01-01"
          ⟨none⟩).2
        = [Action.cancelAll, Action.scheduleNotif n1]) ∧
    (∃ n2, notifActionsOf (scheduleIfNeeded false ⟨"v", ""⟩ ⟨1, 0⟩ "2024-01-02"
          (scheduleIfNeeded false ⟨"v", ""⟩ ⟨0, 0⟩ "2024-01-01" ⟨none⟩).1).2
        = [Action.cancelAll, Action.scheduleNotif n2]) ∧
    (∃ n3, notifActionsOf (scheduleDailyNotification false ⟨"v", ""⟩ "2024-01-01"
          ⟨none⟩).2
        = [Action.cancelAll, Action.scheduleNotif n3]) ∧
    (∃ n4, notifActionsOf (scheduleDailyNotification false ⟨"v", ""⟩ "2024-01-02"
          (scheduleDailyNotification false ⟨"v", ""⟩ "2024-01-01" ⟨none⟩).1).2
        = [Action.cancelAll, Action.scheduleNotif n4]) :=
  schedule_two_days false ⟨"v", ""⟩ ⟨"v", ""⟩ ⟨0, 0⟩ ⟨1, 0⟩ "2024-01-01"
    "2024-01-02" ⟨none⟩ (by decide) (by decide)

/-- C6 counterexample: with the current verse text empty (as in the initial
state), the scheduled notification body is the NOTIF_BODY default, not the
current verse text. -/
theorem notif_body_counterexample :
    ((scheduledOf (scheduleIfNeeded false ⟨"", ""⟩ ⟨0, 0⟩ "2024-01-01"
          ⟨none⟩).2).map fun n => n.content.body)
      = ["Tap to open the app and read a verse!"] ∧
    ("Tap to open the app and read a verse!" : String) ≠ "" :=
  ⟨rfl, by decide⟩

/-- C6 (amended): whenever either scheduling operation schedules, the body of
the scheduled notification is the current verse text when that text is
non-empty, and the locale-selected default NOTIF_BODY when it is empty. -/
theorem notif_body_amended (isPt : Bool) (v : Verse) (now : DateTime)
    (today : String) (store : Store) (h : store.lastOpenDate ≠ some today) :
    ((scheduledOf (scheduleIfNeeded isPt v now today store).2).map
        fun n => n.content.body)
      = [if v.text = "" then NOTIF_BODY isPt else v.text] ∧
    ((scheduledOf (scheduleDailyNotification isPt v today store).2).map
        fun n => n.content.body)
      = [if v.text = "" then NOTIF_BODY isPt else v.text] := by
  rw [scheduleIfNeeded_schedules isPt v now today store h,
    scheduleDailyNotification_schedules isPt v today store h]
  exact ⟨rfl, rfl⟩

/-- C6 witness: a non-empty verse text is used as the body verbatim. -/
theorem notif_body_amended_witness :
    ((scheduledOf (scheduleIfNeeded true ⟨"No princípio", "Gn 1:1"⟩ ⟨0, 0⟩
          "2024-01-01" ⟨none⟩).2).map fun n => n.content.body)
      = ["No princípio"] ∧
    ((scheduledOf (scheduleDailyNotification true ⟨"No princípio", "Gn 1:1"⟩
          "2024-01-01" ⟨none⟩).2).map fun n => n.content.body)
      = ["No princípio"] :=
  notif_body_amended true ⟨"No princípio", "Gn 1:1"⟩ ⟨0, 0⟩ "2024-01-01" ⟨none⟩
    (by decide)

/-- Modelled from the spec: src has no locale table for the error placeholder,
so the spec notion of a locale-appropriate error placeholder whose text
matches the device locale selected at load is modelled as a family of texts
indexed by the locale flag with distinct Portuguese and non-Portuguese
variants, the shape every locale-selected string of the program has
(BUTTON_LABEL, NOTIF_TITLE, NOTIF_BODY). -/
def LocaleAppropriateFamily (f : Bool → String) : Prop := f true ≠ f false

/-- C7 counterexample: no locale-appropriate family of texts matches the
fallback verse fetchVerse substitutes on failures, because that fallback text
is the same fixed string for both locales. -/
theorem fetch_fallback_not_locale :
    ¬ ∃ f : Bool → String, LocaleAppropriateFamily f ∧
        ∀ (b : Bool) (o : FetchOutcome) (e : JsError),
          fetchVerseTry o = Except.error e → (fetchVerse b o).text = f b := by
  rintro ⟨f, hf, hall⟩
  have h1 := hall true FetchOutcome.failure JsError.fetchFailed rfl
  have h2 := hall false FetchOutcome.failure JsError.fetchFailed rfl
  exact hf (h1.symm.trans h2)

/-- C7 (amended): on every network or parse failure no exception escapes
fetchVerse; it substitutes the fixed placeholder verse with text
Erro ao obter versículo. and empty reference, identically for both device
locales. -/
theorem fetch_fallback_fixed (isPt : Bool) (o : FetchOutcome) (e : JsError)
    (h : fetchVerseTry o = Except.error e) :
    fetchVerse isPt o = fetchErrorVerse ∧ fetchVerse true o = fetchVerse false o := by
  constructor
  · unfold fetchVerse
    rw [h]
  · unfold fetchVerse
    rw [h]

/-- C7 witness: the network-error outcome on a non-Portuguese device yields the
fixed fallback verse. -/
theorem fetch_fallback_fixed_witness :
    fetchVerse false FetchOutcome.failure = fetchErrorVerse ∧
    fetchVerse true FetchOutcome.failure = fetchVerse false FetchOutcome.failure :=
  fetch_fallback_fixed false FetchOutcome.failure JsError.fetchFailed rfl

/-- C8: in every reachable state of the stage machine, the stage is display
only if an animation-finish event occurred earlier in the execution, and the
stage is loading only before the first fetch-and-schedule sequence has
completed. -/
theorem stage_display_needs_anim (isPt : Bool) (store0 : Store) (s : AppState)
    (h : Reachable isPt store0 s) :
    (s.stage = Stage.display → s.animFinished = true) ∧
    (s.stage = Stage.loading → s.firstLoadDone = false) :=
  ⟨(reachable_stageInv h).2.1, (reachable_stageInv h).2.2⟩

/-- C9: on launch the mount effect performs the HTTP fetch first, then the
scheduler evaluation actions, then the setStage call to open, in that order;
the refresh handler performs the setStage call to open first, then the fetch,
then the scheduler evaluation; and the scheduler evaluation consists only of
its storage reads and writes, cancellation and scheduling. -/
theorem launch_and_refresh_order (isPt : Bool) (outcome : FetchOutcome)
    (today : String) (s : AppState) :
    (mountEffect isPt outcome today s).2
      = Action.httpGet ::
          ((scheduleDailyNotification isPt s.verse today s.store).2
            ++ [Action.stageSet Stage.opened]) ∧
    (handleRefresh isPt outcome today s).2
      = Action.stageSet Stage.opened :: Action.httpGet ::
          (scheduleDailyNotification isPt s.verse today s.store).2 ∧
    (scheduleDailyNotification isPt s.verse today s.store).2.all
        isSchedulerAction = true := by
  refine ⟨rfl, rfl, ?_⟩
  unfold scheduleDailyNotification
  split <;> rfl

/-- C10: in every reachable state the stage is never turn, so the render
branch of the page-turn animation fires exactly when the stage is open and its
test of the turn value is dead. -/
theorem stage_turn_unreachable (isPt : Bool) (store0 : Store) (s : AppState)
    (h : Reachable isPt store0 s) :
    s.stage ≠ Stage.turn ∧
    (renderTurnAnim s.stage = true ↔ s.stage = Stage.opened) := by
  have h1 := (reachable_stageInv h).1
  refine ⟨h1, ?_⟩
  cases hst : s.stage with
  | loading => simp [renderTurnAnim]
  | opened => simp [renderTurnAnim]
  | turn => exact absurd hst h1
  | display => simp [renderTurnAnim]

/-- A concrete reachable state: the mount effect has completed once (with a
failing fetch) starting from an empty store. -/
def demoState1 : AppState :=
  { (mountEffect false FetchOutcome.failure "2024-01-01" (initState ⟨none⟩)).1
    with firstLoadDone := true }

/-- The state after an animation-finish event in demoState1. -/
def demoState2 : AppState :=
  { demoState1 with stage := Stage.display, animFinished := true }

theorem demo_reach1 : Reachable false ⟨none⟩ demoState1 :=
  Relation.ReflTransGen.tail Relation.ReflTransGen.refl
    (Step.mount (initState ⟨none⟩) FetchOutcome.failure "2024-01-01" rfl)

theorem demo_reach2 : Reachable false ⟨none⟩ demoState2 :=
  Relation.ReflTransGen.tail demo_reach1
    (Step.animFinish demoState1 (Or.inl rfl))

/-- C8 witness: a concrete display state reached through an animation-finish
event has the animation-finish history flag set, and the initial state has the
first-load flag unset. -/
theorem stage_display_needs_anim_witness :
    demoState2.animFinished = true ∧
    (initState ⟨none⟩).firstLoadDone = false :=
  ⟨(stage_display_needs_anim false ⟨none⟩ demoState2 demo_reach2).1 rfl,
    (stage_display_needs_anim false ⟨none⟩ (initState ⟨none⟩)
      Relation.ReflTransGen.refl).2 rfl⟩

/-- C10 witness: the reachable state demoState2 is not in stage turn, and its
animation-render condition agrees with being in stage open. -/
theorem stage_turn_unreachable_witness :
    demoState2.stage ≠ Stage.turn ∧
    (renderTurnAnim demoState2.stage = true ↔ demoState2.stage = Stage.opened) :=
  stage_turn_unreachable false ⟨none⟩ demoState2 demo_reach2

end BibleVerses
